import Mathlib

/-!
SEO meta description handlers.

A shallow embedding of the two serverless handlers of the repository,
`src/cloudflare/worker.js` (`fetch`) and `src/vercel/api/generate.js`
(`handler`), together with the fragment of JavaScript semantics they rely on:
strings as sequences of UTF-16 code units, `String.prototype.trim`,
`String.prototype.slice`, property access with optional chaining on values
produced by `JSON.parse`, and `ToBoolean`.

The outbound call to the model service is a parameter of each handler, and
each handler returns, next to its response, the list of outbound requests it
issued.
-/

set_option autoImplicit false

namespace MetaDescription

/-! ## JavaScript strings -/

/-- A UTF-16 code unit. -/
abbrev CodeUnit := Fin 65536

/-- A JavaScript string: a finite sequence of UTF-16 code units.  `length`,
`slice` and `trim` all work on code units. -/
abbrev JSString := List CodeUnit

/-- UTF-16 encoding of one Unicode scalar value. -/
def utf16 (c : Char) : JSString :=
  if c.toNat < 65536 then
    [Fin.ofNat c.toNat]
  else
    [Fin.ofNat (55296 + (c.toNat - 65536) / 1024), Fin.ofNat (56320 + (c.toNat - 65536) % 1024)]

/-- A string literal of the source, as a sequence of code units. -/
def lit (s : String) : JSString :=
  s.toList.flatMap utf16

/-- The code units removed by `trim`: ECMAScript WhiteSpace (TAB, VT, FF, SP,
NBSP, ZWNBSP and the Unicode space separators) and LineTerminator (LF, CR, LS,
PS). -/
def isWhiteSpace (c : CodeUnit) : Bool :=
  c.val == 9 || c.val == 10 || c.val == 11 || c.val == 12 || c.val == 13 ||
  c.val == 32 || c.val == 160 || c.val == 5760 ||
  (8192 ≤ c.val && c.val ≤ 8202) ||
  c.val == 8232 || c.val == 8233 || c.val == 8239 || c.val == 8287 ||
  c.val == 12288 || c.val == 65279

/-- The method `String.prototype.trim`: leading and trailing white space removed. -/
def trim (s : JSString) : JSString :=
  (s.dropWhile isWhiteSpace).rdropWhile isWhiteSpace

/-- The method `String.prototype.slice(start, end)` for non-negative integer
arguments: the code units at positions `start` (inclusive) to `end`
(exclusive), both clamped to the length. -/
def slice (s : JSString) (start stop : Nat) : JSString :=
  (s.take stop).drop start

/-! ## JavaScript values -/

/-- The JavaScript values the handlers can meet: `undefined`, and what
`JSON.parse` produces.  An object is the list of its own properties.  The
payload of a number is never read by the handlers; only `ToBoolean` looks at
it. -/
inductive JSValue where
  | undefined
  | null
  | bool (b : Bool)
  | num (q : ℚ)
  | str (s : JSString)
  | arr (items : List JSValue)
  | obj (props : List (JSString × JSValue))

/-- An exception thrown by the evaluation of an expression. -/
inductive JSError where
  | typeError
  deriving DecidableEq, Repr

/-- The abstract operation `ToBoolean`. -/
def toBoolean : JSValue → Bool
  | .undefined => false
  | .null => false
  | .bool b => b
  | .num q => decide (q ≠ 0)
  | .str s => !s.isEmpty
  | .arr _ => true
  | .obj _ => true

/-- Whether a value is `undefined` or `null`, the test made by `?.`. -/
def isNullish : JSValue → Bool
  | .undefined => true
  | .null => true
  | _ => false

/-- The property names read by the handlers from the parsed model response.
None of them is defined on a built-in prototype. -/
inductive Member where
  | choices
  | message
  | content
  deriving DecidableEq, Repr

/-- The property key of a member name. -/
def Member.key : Member → JSString
  | .choices => lit "choices"
  | .message => lit "message"
  | .content => lit "content"

/-- Property access `v.m` for `m` one of `choices`, `message`, `content`:
a `TypeError` on `undefined` and `null`, the own property of an object when it
has one, and `undefined` in every other case (arrays, strings, numbers and
booleans have no such property). -/
def getMember (m : Member) : JSValue → Except JSError JSValue
  | .undefined => .error .typeError
  | .null => .error .typeError
  | .obj props => .ok ((props.lookup m.key).getD .undefined)
  | _ => .ok .undefined

/-- Indexed access `v[0]`: the first element of an array, the own property
`"0"` of an object, the first code unit of a string, `undefined` for numbers
and booleans, and a `TypeError` on `undefined` and `null`. -/
def getIndex0 : JSValue → Except JSError JSValue
  | .undefined => .error .typeError
  | .null => .error .typeError
  | .arr items => .ok (items.head?.getD .undefined)
  | .obj props => .ok ((props.lookup (lit "0")).getD .undefined)
  | .str s => .ok (match s with
      | [] => .undefined
      | c :: _ => .str [c])
  | _ => .ok .undefined

/-- The call `v.trim()` on a value that is not nullish: the trimmed string
when `v` is a string; otherwise `v.trim` is not a function (a value made by
`JSON.parse` holds no function) and the call throws a `TypeError`. -/
def callTrim : JSValue → Except JSError JSString
  | .str s => .ok (trim s)
  | _ => .error .typeError

/-- The optional chaining operator `?.`: when the value on its left is nullish
the whole remaining chain is skipped and yields `undefined`. -/
def optChain (v : JSValue) (rest : JSValue → Except JSError JSValue) :
    Except JSError JSValue :=
  if isNullish v then .ok .undefined else rest v

/-! ## The outbound call -/

/-- The request sent to the chat completion endpoint. -/
structure OutboundRequest where
  url : JSString
  method : JSString
  authorization : JSString
  contentType : JSString
  model : JSString
  role : JSString
  content : JSString
  maxTokens : Nat
  deriving DecidableEq

/-- What the two awaited steps of the model call can do: `fetch` rejects,
`json()` rejects, or `json()` resolves to a parsed value. -/
inductive Outcome where
  | fetchThrew
  | jsonThrew
  | parsed (data : JSValue)

/-- The response of a handler: status code and the object that is serialised
as the JSON body. -/
structure Response where
  status : Nat
  body : JSValue

/-- The value of a configuration variable such as `OPENAI_API_KEY`:
absent, or a string. -/
abbrev Credential := Option JSString

/-- The value read from a configuration variable: `undefined` when it is
absent. -/
def Credential.toValue : Credential → JSValue
  | none => .undefined
  | some k => .str k

/-- The prompt template of both handlers. -/
def promptFor (title description : JSString) : JSString :=
  lit "Generate an SEO meta description under 160 characters for a page titled " ++
    [34] ++ title ++ [34] ++ lit " with this context: " ++ description

/-- The expression `data.choices?.[0]?.message?.content?.trim().slice(0, 160)`
(`worker.js` line 39, `generate.js` line 31). -/
def completionExpr (data : JSValue) : Except JSError JSValue :=
  getMember .choices data >>= fun choices =>
  optChain choices fun choices =>
  getIndex0 choices >>= fun first =>
  optChain first fun first =>
  getMember .message first >>= fun message =>
  optChain message fun message =>
  getMember .content message >>= fun content =>
  optChain content fun content =>
  callTrim content >>= fun trimmed =>
  pure (.str (slice trimmed 0 160))

/-- The fallback expression
`description.length > 160 ? description.slice(0, 157) + "..." : description`
(`worker.js` line 46, `generate.js` line 37). -/
def fallback (description : JSString) : JSString :=
  if description.length > 160 then slice description 0 157 ++ lit "..." else description

/-- The request both handlers send to the chat completion endpoint. -/
def openaiRequest (key title description : JSString) : OutboundRequest where
  url := lit "https://api.openai.com/v1/chat/completions"
  method := lit "POST"
  authorization := lit "Bearer " ++ key
  contentType := lit "application/json"
  model := lit "gpt-4o"
  role := lit "user"
  content := promptFor title description
  maxTokens := 100

/-- The body `{ error: "Missing title or description" }`. -/
def errorBody : JSValue :=
  .obj [(lit "error", .str (lit "Missing title or description"))]

/-- The body `{ meta }`. -/
def metaBody (v : JSValue) : JSValue :=
  .obj [(lit "meta", v)]

/-! ## The Cloudflare worker -/

namespace Cloudflare

/-- The handler `fetch(request, env)` of `src/cloudflare/worker.js`.
`titleParam` and `descriptionParam` are the results of
`url.searchParams.get`, `none` standing for `null`; `apiKey` is
`env.OPENAI_API_KEY`; `callModel` is the awaited outbound `fetch` followed by
`json()`.  The result is the response and the outbound requests issued. -/
def fetch (titleParam descriptionParam : Option JSString) (apiKey : Credential)
    (callModel : OutboundRequest → Outcome) : Response × List OutboundRequest :=
  let title : JSString :=
    match titleParam with
    | none => lit ""
    | some s => if toBoolean (.str s) then s else lit ""
  let description : JSString :=
    match descriptionParam with
    | none => lit ""
    | some s => if toBoolean (.str s) then s else lit ""
  if !toBoolean (.str title) || !toBoolean (.str description) then
    (⟨400, errorBody⟩, [])
  else
    let attempt : JSValue × List OutboundRequest :=
      if toBoolean apiKey.toValue then
        let request := openaiRequest (apiKey.getD []) title description
        match callModel request with
        | .fetchThrew => (.null, [request])
        | .jsonThrew => (.null, [request])
        | .parsed data =>
          match completionExpr data with
          | .ok v => (v, [request])
          | .error _ => (.null, [request])
      else
        (.undefined, [])
    let meta : JSValue :=
      if !toBoolean attempt.1 then .str (fallback description) else attempt.1
    (⟨200, metaBody meta⟩, attempt.2)

end Cloudflare

/-! ## The Vercel function -/

/-- A field of `req.query` on Vercel: one string, or an array of strings when
the parameter occurs several times in the URL. -/
inductive QueryValue where
  | single (s : JSString)
  | multiple (items : List JSString)
  deriving DecidableEq

/-- A query field as a JavaScript value. -/
def QueryValue.toValue : QueryValue → JSValue
  | .single s => .str s
  | .multiple items => .arr (items.map .str)

/-- The method `Array.prototype.join` with its default separator `","`, on an
array of strings. -/
def joinComma (items : List JSString) : JSString :=
  List.intercalate [44] items

/-- The string a query field is converted to inside a template literal or by
`+` with a string: a string is itself, an array of strings is joined with
commas. -/
def QueryValue.toText : QueryValue → JSString
  | .single s => s
  | .multiple items => joinComma items

/-- The fallback expression
`description.length > 160 ? description.slice(0, 157) + "..." : description`
of `generate.js` line 37 on a query field.  On a string it is `fallback`.  On
an array `length` counts the items, `slice` keeps the first 157 items, `+`
joins them with commas before appending, and the unchanged branch yields the
array itself. -/
def fallbackOfQuery : QueryValue → JSValue
  | .single s => .str (fallback s)
  | .multiple items =>
    if items.length > 160 then .str (joinComma (items.take 157) ++ lit "...")
    else .arr (items.map .str)

namespace Vercel

/-- The function `handler(req, res)` of `src/vercel/api/generate.js`.
`titleQuery` and `descriptionQuery` are the two fields of `req.query`, each
absent (`none`, for `undefined`), a string, or an array of strings for a
repeated parameter; `apiKey` is `process.env.OPENAI_API_KEY`;
`callModel` is the awaited outbound `fetch` followed by `json()`.  The result
is the response written to `res` and the outbound requests issued. -/
def handler (titleQuery descriptionQuery : Option QueryValue) (apiKey : Credential)
    (callModel : OutboundRequest → Outcome) : Response × List OutboundRequest :=
  let title : QueryValue := titleQuery.getD (.single (lit ""))
  let description : QueryValue := descriptionQuery.getD (.single (lit ""))
  if !toBoolean title.toValue || !toBoolean description.toValue then
    (⟨400, errorBody⟩, [])
  else
    let openaiApiKey := apiKey
    let attempt : JSValue × List OutboundRequest :=
      if toBoolean openaiApiKey.toValue then
        let request := openaiRequest (openaiApiKey.getD []) title.toText description.toText
        match callModel request with
        | .fetchThrew => (.null, [request])
        | .jsonThrew => (.null, [request])
        | .parsed data =>
          match completionExpr data with
          | .ok v => (v, [request])
          | .error _ => (.null, [request])
      else
        (.undefined, [])
    let meta : JSValue :=
      if !toBoolean attempt.1 then fallbackOfQuery description else attempt.1
    (⟨200, metaBody meta⟩, attempt.2)

end Vercel

/-! ## The response shape of the model service -/

/-- The completion text of a parsed model response, following the interface
description of the service: the first choice contains a message with a
`content` string field.  `none` when `data.choices[0].message.content` cannot
be reached or is not a string. -/
def completionText (data : JSValue) : Option JSString :=
  match getMember .choices data with
  | .ok choices =>
    match getIndex0 choices with
    | .ok first =>
      match getMember .message first with
      | .ok message =>
        match getMember .content message with
        | .ok (.str text) => some text
        | _ => none
      | _ => none
    | _ => none
  | _ => none

/-- A well-formed chat completion response with the given completion text. -/
def chatCompletion (text : JSString) : JSValue :=
  .obj [(lit "choices", .arr [.obj [(lit "message",
    .obj [(lit "role", .str (lit "assistant")), (lit "content", .str text)])]])]

/-! ## Strings -/

theorem lit_dots : lit "..." = [46, 46, 46] := by decide

theorem lit_empty : lit "" = [] := by decide

theorem toBoolean_str (s : JSString) : toBoolean (.str s) = true ↔ s ≠ [] := by
  cases s <;> simp [toBoolean]

theorem slice_zero (s : JSString) (n : Nat) : slice s 0 n = s.take n := by
  simp [slice]

theorem trim_eq_nil_of_forall (s : JSString) (h : ∀ c ∈ s, isWhiteSpace c = true) :
    trim s = [] := by
  have h1 : s.dropWhile isWhiteSpace = [] := by
    rw [List.dropWhile_eq_nil_iff]
    exact h
  simp [trim, h1]

theorem fallback_of_le (d : JSString) (h : d.length ≤ 160) : fallback d = d := by
  unfold fallback
  rw [if_neg (by omega)]

theorem fallback_of_gt (d : JSString) (h : 160 < d.length) :
    fallback d = d.take 157 ++ [46, 46, 46] := by
  unfold fallback
  rw [if_pos h, slice_zero, lit_dots]

theorem fallback_length_of_gt (d : JSString) (h : 160 < d.length) :
    (fallback d).length = 160 := by
  rw [fallback_of_gt d h]
  simp 
  omega

theorem fallback_length_le (d : JSString) : (fallback d).length ≤ 160 := by
  by_cases h : 160 < d.length
  · rw [fallback_length_of_gt d h]
  · rw [fallback_of_le d (by omega)]; omega

theorem fallback_ne_nil (d : JSString) (h : d ≠ []) : fallback d ≠ [] := by
  by_cases h1 : 160 < d.length
  · intro h2
    have := fallback_length_of_gt d h1
    rw [h2] at this
    simp at this
  · rw [fallback_of_le d (by omega)]; exact h

theorem getMember_ok_not_nullish (m : Member) (v w : JSValue)
    (h : getMember m v = .ok w) : isNullish v = false := by
  cases v <;> simp [getMember, isNullish] at h ⊢

theorem getIndex0_ok_not_nullish (v w : JSValue)
    (h : getIndex0 v = .ok w) : isNullish v = false := by
  cases v <;> simp [getIndex0, isNullish] at h ⊢

theorem optChain_of_not_nullish (v : JSValue) (rest : JSValue → Except JSError JSValue)
    (h : isNullish v = false) : optChain v rest = rest v := by
  simp [optChain, h]

theorem completionExpr_of_text (data : JSValue) (text : JSString)
    (h : completionText data = some text) :
    completionExpr data = .ok (.str ((trim text).take 160)) := by
  unfold completionText at h
  unfold completionExpr
  cases h1 : getMember .choices data with
  | error e => simp [h1] at h
  | ok choices =>
    simp only [h1] at h
    cases h2 : getIndex0 choices with
    | error e => simp [h2] at h
    | ok first =>
      simp only [h2] at h
      cases h3 : getMember .message first with
      | error e => simp [h3] at h
      | ok message =>
        simp only [h3] at h
        cases h4 : getMember .content message with
        | error e => simp [h4] at h
        | ok content =>
          simp only [h4] at h
          have n1 := getIndex0_ok_not_nullish _ _ h2
          have n2 := getMember_ok_not_nullish _ _ _ h3
          have n3 := getMember_ok_not_nullish _ _ _ h4
          cases content with
          | str s =>
            simp only [Option.some.injEq] at h
            subst h
            have n4 : isNullish (.str s) = false := rfl
            simp [bind, Except.bind, optChain_of_not_nullish, n1, n2, n3, n4, h2, h3, h4,
              callTrim, pure, Except.pure, slice_zero]
          | _ => simp at h

theorem completionExpr_of_none (data : JSValue) (h : completionText data = none) :
    (∃ e, completionExpr data = .error e) ∨ completionExpr data = .ok .undefined := by
  unfold completionText at h
  unfold completionExpr
  cases h1 : getMember .choices data with
  | error e => left; exact ⟨e, rfl⟩
  | ok choices =>
    simp only [h1] at h
    by_cases n1 : isNullish choices = true
    · right; simp [bind, Except.bind, optChain, n1]
    simp only [Bool.not_eq_true] at n1
    cases h2 : getIndex0 choices with
    | error e => left; exact ⟨e, by simp [bind, Except.bind, optChain, n1, h2]⟩
    | ok first =>
      simp only [h2] at h
      by_cases n2 : isNullish first = true
      · right; simp [bind, Except.bind, optChain, n1, n2, h2]
      simp only [Bool.not_eq_true] at n2
      cases h3 : getMember .message first with
      | error e => left; exact ⟨e, by simp [bind, Except.bind, optChain, n1, n2, h2, h3]⟩
      | ok message =>
        simp only [h3] at h
        by_cases n3 : isNullish message = true
        · right; simp [bind, Except.bind, optChain, n1, n2, n3, h2, h3]
        simp only [Bool.not_eq_true] at n3
        cases h4 : getMember .content message with
        | error e => left; exact ⟨e, by simp [bind, Except.bind, optChain, n1, n2, n3, h2, h3, h4]⟩
        | ok content =>
          simp only [h4] at h
          simp only [bind, Except.bind, optChain_of_not_nullish, n1, n2, n3, h2, h3, h4]
          cases content <;> simp [optChain, isNullish, callTrim] at h ⊢ <;>
            exact ⟨.typeError, trivial⟩

/-! ## Normal forms of the handlers -/

theorem orEmpty_eq (s : JSString) : (if toBoolean (.str s) = true then s else lit "") = s := by
  cases s <;> simp [toBoolean, lit_empty]

theorem handler_eq_fetch (t d : Option JSString) (apiKey : Credential)
    (callModel : OutboundRequest → Outcome) :
    Vercel.handler (t.map .single) (d.map .single) apiKey callModel =
      Cloudflare.fetch t d apiKey callModel := by
  cases t <;> cases d <;>
    simp [Vercel.handler, Cloudflare.fetch, orEmpty_eq, QueryValue.toValue, QueryValue.toText,
      fallbackOfQuery]

theorem handler_single_eq_fetch (t d : JSString) (apiKey : Credential)
    (callModel : OutboundRequest → Outcome) :
    Vercel.handler (some (.single t)) (some (.single d)) apiKey callModel =
      Cloudflare.fetch (some t) (some d) apiKey callModel :=
  handler_eq_fetch (some t) (some d) apiKey callModel

theorem toBoolean_query (q : Option QueryValue) :
    toBoolean (q.getD (.single (lit ""))).toValue = false ↔
      (q = none ∨ q = some (.single [])) := by
  cases q with
  | none => simp [lit_empty, QueryValue.toValue, toBoolean]
  | some v =>
    cases v with
    | single s => cases s <;> simp [QueryValue.toValue, toBoolean]
    | multiple items => simp [QueryValue.toValue, toBoolean]

theorem handler_missing (tq dq : Option QueryValue) (apiKey : Credential)
    (callModel : OutboundRequest → Outcome)
    (h : (tq = none ∨ tq = some (.single [])) ∨ (dq = none ∨ dq = some (.single []))) :
    Vercel.handler tq dq apiKey callModel = (⟨400, errorBody⟩, []) := by
  rcases h with h | h
  · have e := (toBoolean_query tq).mpr h
    simp only [Vercel.handler, e, Bool.not_false, Bool.true_or, if_true]
  · have e := (toBoolean_query dq).mpr h
    simp only [Vercel.handler, e, Bool.not_false, Bool.or_true, if_true]

theorem handler_present (tq dq : Option QueryValue) (apiKey : Credential)
    (callModel : OutboundRequest → Outcome)
    (h : ¬ ((tq = none ∨ tq = some (.single [])) ∨ (dq = none ∨ dq = some (.single [])))) :
    (Vercel.handler tq dq apiKey callModel).1.status = 200 ∧
      ∃ m, (Vercel.handler tq dq apiKey callModel).1.body = metaBody m := by
  rw [not_or] at h
  have e1 : toBoolean (tq.getD (.single (lit ""))).toValue = true := by
    rw [← Bool.not_eq_false, toBoolean_query]; exact h.1
  have e2 : toBoolean (dq.getD (.single (lit ""))).toValue = true := by
    rw [← Bool.not_eq_false, toBoolean_query]; exact h.2
  simp only [Vercel.handler, e1, e2, Bool.not_true, Bool.or_self, Bool.false_eq_true, if_false]
  exact ⟨trivial, _, rfl⟩

theorem handler_no_key (tq dq : QueryValue) (callModel : OutboundRequest → Outcome)
    (ht : toBoolean tq.toValue = true) (hd : toBoolean dq.toValue = true) :
    Vercel.handler (some tq) (some dq) none callModel =
      (⟨200, metaBody (fallbackOfQuery dq)⟩, []) := by
  simp only [Vercel.handler, Option.getD, ht, hd, Bool.not_true, Bool.or_self,
    Bool.false_eq_true, if_false]
  simp [Credential.toValue, toBoolean]

theorem joinComma_replicate_length (n : Nat) (s : JSString) :
    (joinComma (List.replicate (n + 1) s)).length = n * (s.length + 1) + s.length := by
  induction n with
  | zero => simp [joinComma, List.intercalate]
  | succ n ih =>
    rw [List.replicate_succ]
    simp only [joinComma, List.intercalate] at ih ⊢
    rw [List.replicate_succ, List.intersperse_cons_cons, List.flatten_cons, List.flatten_cons,
      List.length_append, List.length_append, ← List.replicate_succ, ih]
    simp
    ring

theorem fetch_key (t d k : JSString) (callModel : OutboundRequest → Outcome)
    (ht : t ≠ []) (hd : d ≠ []) (hk : k ≠ []) :
    Cloudflare.fetch (some t) (some d) (some k) callModel =
      (⟨200, metaBody (match callModel (openaiRequest k t d) with
          | .parsed data =>
            match completionExpr data with
            | .ok v => if toBoolean v = true then v else .str (fallback d)
            | .error _ => .str (fallback d)
          | _ => .str (fallback d))⟩, [openaiRequest k t d]) := by
  have h1 := (toBoolean_str t).mpr ht
  have h2 := (toBoolean_str d).mpr hd
  have h3 := (toBoolean_str k).mpr hk
  simp only [Cloudflare.fetch, h1, h2, Credential.toValue, h3, Option.getD, if_true,
    Bool.not_true, Bool.or_self, Bool.false_eq_true, if_false]
  generalize callModel (openaiRequest k t d) = out
  cases out with
  | fetchThrew => simp [toBoolean]
  | jsonThrew => simp [toBoolean]
  | parsed data =>
    simp only
    generalize completionExpr data = res
    cases res with
    | error e => simp [toBoolean]
    | ok v => cases hv : toBoolean v <;> simp [hv]

theorem fetch_no_key (t d : JSString) (apiKey : Credential)
    (callModel : OutboundRequest → Outcome) (ht : t ≠ []) (hd : d ≠ [])
    (hk : toBoolean apiKey.toValue = false) :
    Cloudflare.fetch (some t) (some d) apiKey callModel =
      (⟨200, metaBody (.str (fallback d))⟩, []) := by
  have h1 := (toBoolean_str t).mpr ht
  have h2 := (toBoolean_str d).mpr hd
  simp only [Cloudflare.fetch, h1, h2, hk, if_true,
    Bool.not_true, Bool.or_self, Bool.false_eq_true, if_false]
  simp [toBoolean]

theorem fetch_missing (t d : Option JSString) (apiKey : Credential)
    (callModel : OutboundRequest → Outcome)
    (h : (t = none ∨ t = some []) ∨ (d = none ∨ d = some [])) :
    Cloudflare.fetch t d apiKey callModel = (⟨400, errorBody⟩, []) := by
  have e : toBoolean (.str (lit "")) = false := by decide
  have e2 : toBoolean (.str []) = false := by decide
  rcases h with (h | h) | (h | h) <;> subst h <;>
    simp only [Cloudflare.fetch, e, e2, if_true, Bool.not_true, Bool.or_true, Bool.true_or,
      Bool.not_false, Bool.false_eq_true, if_false]

theorem fetch_key_text (t d k text : JSString) (callModel : OutboundRequest → Outcome)
    (data : JSValue) (ht : t ≠ []) (hd : d ≠ []) (hk : k ≠ [])
    (hc : callModel (openaiRequest k t d) = .parsed data)
    (htext : completionText data = some text) :
    Cloudflare.fetch (some t) (some d) (some k) callModel =
      (⟨200, metaBody (.str (if trim text = [] then fallback d else (trim text).take 160))⟩,
        [openaiRequest k t d]) := by
  rw [fetch_key t d k callModel ht hd hk, hc]
  simp only [completionExpr_of_text data text htext]
  by_cases h : trim text = []
  · simp [h, toBoolean]
  · have h1 : (trim text).take 160 ≠ [] := by
      intro h2
      rw [List.take_eq_nil_iff] at h2
      rcases h2 with h2 | h2
      · omega
      · exact h h2
    rw [if_pos ((toBoolean_str _).mpr h1), if_neg h]

theorem fetch_key_fallback (t d k : JSString) (callModel : OutboundRequest → Outcome)
    (ht : t ≠ []) (hd : d ≠ []) (hk : k ≠ [])
    (h : callModel (openaiRequest k t d) = .fetchThrew ∨
      callModel (openaiRequest k t d) = .jsonThrew ∨
      ∃ data, callModel (openaiRequest k t d) = .parsed data ∧ completionText data = none) :
    Cloudflare.fetch (some t) (some d) (some k) callModel =
      (⟨200, metaBody (.str (fallback d))⟩, [openaiRequest k t d]) := by
  rw [fetch_key t d k callModel ht hd hk]
  rcases h with h | h | ⟨data, h, hn⟩
  · rw [h]
  · rw [h]
  · rw [h]
    rcases completionExpr_of_none data hn with ⟨e, he⟩ | he
    · simp only [he]
    · simp [he, toBoolean]

theorem trim_length_le (s : JSString) : (trim s).length ≤ s.length := by
  unfold trim
  exact le_trans ( List.rdropWhile_prefix isWhiteSpace _).length_le
    (List.dropWhile_suffix isWhiteSpace).length_le

theorem toBoolean_credential_false (apiKey : Credential)
    (h : apiKey = none ∨ apiKey = some []) : toBoolean apiKey.toValue = false := by
  rcases h with h | h <;> subst h <;> rfl

theorem fallback_eq_ite (d : JSString) :
    fallback d = (if d.length ≤ 160 then d else d.take 157 ++ lit "...") := by
  by_cases h : d.length ≤ 160
  · rw [if_pos h, fallback_of_le _ h]
  · rw [if_neg h, fallback_of_gt _ (by omega), lit_dots]

theorem completionText_chatCompletion (text : JSString) :
    completionText (chatCompletion text) = some text := rfl

theorem trim_replicate_space (n : Nat) : trim (List.replicate n (32 : CodeUnit)) = [] := by
  apply trim_eq_nil_of_forall
  intro c hc
  rw [List.eq_of_mem_replicate hc]
  rfl

theorem trim_cons_ne_nil (c : CodeUnit) (s : JSString) (h : isWhiteSpace c = false) :
    trim (c :: s) ≠ [] := by
  unfold trim
  rw [List.dropWhile_cons_of_neg (by simp [h])]
  intro h2
  rw [List.rdropWhile_eq_nil_iff] at h2
  have := h2 c (List.mem_cons_self c s)
  simp [h] at this

/-! ## The claims -/

/-- C1. With a non-empty title and description and no credential configured
(the variable absent or empty), both handlers answer 200 with `meta` equal to
the description when it has at most 160 code units, and to its first 157 code
units followed by `...` otherwise; in the second case `meta` has exactly 160
code units. -/
theorem no_credential_meta (title description : JSString) (apiKey : Credential)
    (callModel : OutboundRequest → Outcome)
    (ht : title ≠ []) (hd : description ≠ [])
    (hk : apiKey = none ∨ apiKey = some []) :
    (Cloudflare.fetch (some title) (some description) apiKey callModel).1 =
        ⟨200, metaBody (.str (if description.length ≤ 160 then description
          else description.take 157 ++ lit "..."))⟩ ∧
      (Vercel.handler (some (.single title)) (some (.single description)) apiKey callModel).1 =
        ⟨200, metaBody (.str (if description.length ≤ 160 then description
          else description.take 157 ++ lit "..."))⟩ ∧
      (160 < description.length → (description.take 157 ++ lit "...").length = 160) := by
  have hf : fallback description =
      (if description.length ≤ 160 then description else description.take 157 ++ lit "...") := by
    by_cases h : description.length ≤ 160
    · rw [if_pos h, fallback_of_le _ h]
    · rw [if_neg h, fallback_of_gt _ (by omega), lit_dots]
  have hb := toBoolean_credential_false apiKey hk
  refine ⟨?_, ?_, ?_⟩
  · rw [fetch_no_key title description apiKey callModel ht hd hb, hf]
  · rw [handler_single_eq_fetch, fetch_no_key title description apiKey callModel ht hd hb, hf]
  · intro h
    rw [lit_dots]
    simp
    omega

/-- Witness of C1 at a description of 161 code units. -/
theorem no_credential_meta_witness :
    (Cloudflare.fetch (some [97]) (some (List.replicate 161 120)) none
        (fun _ => Outcome.fetchThrew)).1 =
        ⟨200, metaBody (.str (if (List.replicate 161 (120 : CodeUnit)).length ≤ 160
          then List.replicate 161 120
          else (List.replicate 161 120).take 157 ++ lit "..."))⟩ ∧
      (Vercel.handler (some (.single [97])) (some (.single (List.replicate 161 120))) none
        (fun _ => Outcome.fetchThrew)).1 =
        ⟨200, metaBody (.str (if (List.replicate 161 (120 : CodeUnit)).length ≤ 160
          then List.replicate 161 120
          else (List.replicate 161 120).take 157 ++ lit "..."))⟩ ∧
      (160 < (List.replicate 161 (120 : CodeUnit)).length →
        ((List.replicate 161 (120 : CodeUnit)).take 157 ++ lit "...").length = 160) :=
  no_credential_meta [97] (List.replicate 161 120) none (fun _ => Outcome.fetchThrew)
    (by decide) (by simp) (Or.inl rfl)

/-- C2. Whatever the credential and the outcome of the model call, each handler
answers 400 with the body `{ error: "Missing title or description" }` exactly
when the title or the description is absent or the empty string, and in every
other case answers 200 with a body `{ meta }`.  For the Vercel handler this
covers every value of a query field, an array for a repeated parameter
included (an array is neither absent nor the empty string). -/
theorem validation_error_iff_missing (t d : Option JSString) (tq dq : Option QueryValue)
    (apiKey : Credential) (callModel : OutboundRequest → Outcome) :
    ((Cloudflare.fetch t d apiKey callModel).1 = ⟨400, errorBody⟩ ↔
        ((t = none ∨ t = some []) ∨ (d = none ∨ d = some []))) ∧
      ((Vercel.handler tq dq apiKey callModel).1 = ⟨400, errorBody⟩ ↔
        ((tq = none ∨ tq = some (.single [])) ∨ (dq = none ∨ dq = some (.single [])))) ∧
      (¬ ((t = none ∨ t = some []) ∨ (d = none ∨ d = some [])) →
        (Cloudflare.fetch t d apiKey callModel).1.status = 200 ∧
          ∃ m, (Cloudflare.fetch t d apiKey callModel).1.body = metaBody m) ∧
      (¬ ((tq = none ∨ tq = some (.single [])) ∨ (dq = none ∨ dq = some (.single []))) →
        (Vercel.handler tq dq apiKey callModel).1.status = 200 ∧
          ∃ m, (Vercel.handler tq dq apiKey callModel).1.body = metaBody m) := by
  have key : ¬ ((t = none ∨ t = some []) ∨ (d = none ∨ d = some [])) →
      (Cloudflare.fetch t d apiKey callModel).1.status = 200 ∧
        ∃ m, (Cloudflare.fetch t d apiKey callModel).1.body = metaBody m := by
    intro h
    push_neg at h
    obtain ⟨⟨h1, h2⟩, h3, h4⟩ := h
    cases t with
    | none => exact absurd rfl h1
    | some ts =>
      cases d with
      | none => exact absurd rfl h3
      | some ds =>
        have ht : ts ≠ [] := fun e => h2 (by rw [e])
        have hd : ds ≠ [] := fun e => h4 (by rw [e])
        cases apiKey with
        | none =>
          rw [fetch_no_key ts ds none callModel ht hd rfl]
          exact ⟨rfl, _, rfl⟩
        | some k =>
          by_cases hk : k = []
          · rw [fetch_no_key ts ds (some k) callModel ht hd (by rw [hk]; rfl)]
            exact ⟨rfl, _, rfl⟩
          · rw [fetch_key ts ds k callModel ht hd hk]
            exact ⟨rfl, _, rfl⟩
  have keyq := handler_present tq dq apiKey callModel
  refine ⟨?_, ?_, key, keyq⟩
  · constructor
    · intro h
      by_contra hn
      have hs := (key hn).1
      rw [h] at hs
      exact absurd hs (by decide)
    · intro h
      rw [fetch_missing t d apiKey callModel h]
  · constructor
    · intro h
      by_contra hn
      have hs := (keyq hn).1
      rw [h] at hs
      exact absurd hs (by decide)
    · intro h
      rw [handler_missing tq dq apiKey callModel h]

/-- Witness of C2 at a request with both parameters present, the description
repeated on the Vercel side. -/
theorem validation_error_iff_missing_witness :
    ((Cloudflare.fetch (some [97]) (some [98]) none (fun _ => Outcome.jsonThrew)).1.status = 200 ∧
      ∃ m, (Cloudflare.fetch (some [97]) (some [98]) none
        (fun _ => Outcome.jsonThrew)).1.body = metaBody m) ∧
    ((Vercel.handler (some (.single [97])) (some (.multiple [[120], [121]])) none
        (fun _ => Outcome.jsonThrew)).1.status = 200 ∧
      ∃ m, (Vercel.handler (some (.single [97])) (some (.multiple [[120], [121]])) none
        (fun _ => Outcome.jsonThrew)).1.body = metaBody m) :=
  ⟨(validation_error_iff_missing (some [97]) (some [98]) (some (.single [97]))
      (some (.multiple [[120], [121]])) none (fun _ => Outcome.jsonThrew)).2.2.1 (by decide),
    (validation_error_iff_missing (some [97]) (some [98]) (some (.single [97]))
      (some (.multiple [[120], [121]])) none (fun _ => Outcome.jsonThrew)).2.2.2 (by decide)⟩

/-- C3, as stated, fails on the Vercel handler: a request whose description
parameter is repeated passes validation, and with the two values `"x"` and
`"y"` the `meta` of the response is the array `["x", "y"]`, not a string; with
161 values `"x"` it is a string of 316 code units. -/
theorem repeated_description_meta_not_short_string :
    (Vercel.handler (some (.single [97])) (some (.multiple [[120], [121]])) none
        (fun _ => Outcome.fetchThrew)).1.status = 200 ∧
      (Vercel.handler (some (.single [97])) (some (.multiple [[120], [121]])) none
        (fun _ => Outcome.fetchThrew)).1.body = metaBody (.arr [.str [120], .str [121]]) ∧
      (¬ ∃ s : JSString,
        (Vercel.handler (some (.single [97])) (some (.multiple [[120], [121]])) none
          (fun _ => Outcome.fetchThrew)).1 = ⟨200, metaBody (.str s)⟩ ∧
            s ≠ [] ∧ s.length ≤ 160) ∧
      (∃ s : JSString,
        (Vercel.handler (some (.single [97])) (some (.multiple (List.replicate 161 [120]))) none
          (fun _ => Outcome.fetchThrew)).1 = ⟨200, metaBody (.str s)⟩ ∧ s.length = 316) := by
  refine ⟨rfl, rfl, ?_, ?_⟩
  · rintro ⟨s, h, -⟩
    have hb : (Vercel.handler (some (.single [97])) (some (.multiple [[120], [121]])) none
        (fun _ => Outcome.fetchThrew)).1.body = metaBody (.arr [.str [120], .str [121]]) := rfl
    rw [h] at hb
    simp [metaBody] at hb
  · rw [handler_no_key (.single [97]) (.multiple (List.replicate 161 [120]))
      (fun _ => Outcome.fetchThrew) rfl rfl]
    refine ⟨joinComma (List.replicate 157 [120]) ++ [46, 46, 46], ?_, ?_⟩
    · simp [fallbackOfQuery, lit_dots]
    · rw [List.length_append, joinComma_replicate_length 156 [120]]
      rfl

/-- C3, amended.  For a request whose title and description are each given as
one non-empty string, whatever the credential and whatever the model call
returns or throws, both handlers answer with a `meta` that is a string, not
empty, of at most 160 code units. -/
theorem meta_nonempty_at_most_160 (title description : JSString) (apiKey : Credential)
    (callModel : OutboundRequest → Outcome)
    (ht : title ≠ []) (hd : description ≠ []) :
    (∃ s : JSString,
        (Cloudflare.fetch (some title) (some description) apiKey callModel).1 =
          ⟨200, metaBody (.str s)⟩ ∧ s ≠ [] ∧ s.length ≤ 160) ∧
      (∃ s : JSString,
        (Vercel.handler (some (.single title)) (some (.single description)) apiKey callModel).1 =
          ⟨200, metaBody (.str s)⟩ ∧ s ≠ [] ∧ s.length ≤ 160) := by
  have key : ∃ s : JSString,
      (Cloudflare.fetch (some title) (some description) apiKey callModel).1 =
        ⟨200, metaBody (.str s)⟩ ∧ s ≠ [] ∧ s.length ≤ 160 := by
    have fb : fallback description ≠ [] ∧ (fallback description).length ≤ 160 :=
      ⟨fallback_ne_nil _ hd, fallback_length_le _⟩
    cases apiKey with
    | none =>
      rw [fetch_no_key title description none callModel ht hd rfl]
      exact ⟨_, rfl, fb⟩
    | some k =>
      by_cases hk : k = []
      · rw [fetch_no_key title description (some k) callModel ht hd (by rw [hk]; rfl)]
        exact ⟨_, rfl, fb⟩
      · cases hc : callModel (openaiRequest k title description) with
        | fetchThrew =>
          rw [fetch_key_fallback title description k callModel ht hd hk (Or.inl hc)]
          exact ⟨_, rfl, fb⟩
        | jsonThrew =>
          rw [fetch_key_fallback title description k callModel ht hd hk (Or.inr (Or.inl hc))]
          exact ⟨_, rfl, fb⟩
        | parsed data =>
          cases htext : completionText data with
          | none =>
            rw [fetch_key_fallback title description k callModel ht hd hk
              (Or.inr (Or.inr ⟨data, hc, htext⟩))]
            exact ⟨_, rfl, fb⟩
          | some text =>
            rw [fetch_key_text title description k text callModel data ht hd hk hc htext]
            refine ⟨_, rfl, ?_⟩
            by_cases h : trim text = []
            · rw [if_pos h]; exact fb
            · rw [if_neg h]
              refine ⟨?_, ?_⟩
              · intro h2
                rw [List.take_eq_nil_iff] at h2
                rcases h2 with h2 | h2
                · omega
                · exact h h2
              · rw [List.length_take]; omega
  refine ⟨key, ?_⟩
  rw [handler_single_eq_fetch]
  exact key

/-- Witness of the amended C3 at a well-formed model response. -/
theorem meta_nonempty_at_most_160_witness :
    (∃ s : JSString,
        (Cloudflare.fetch (some [97]) (some [98]) (some [107])
          (fun _ => Outcome.parsed (chatCompletion [32, 104, 105]))).1 =
          ⟨200, metaBody (.str s)⟩ ∧ s ≠ [] ∧ s.length ≤ 160) ∧
      (∃ s : JSString,
        (Vercel.handler (some (.single [97])) (some (.single [98])) (some [107])
          (fun _ => Outcome.parsed (chatCompletion [32, 104, 105]))).1 =
          ⟨200, metaBody (.str s)⟩ ∧ s ≠ [] ∧ s.length ≤ 160) :=
  meta_nonempty_at_most_160 [97] [98] (some [107])
    (fun _ => Outcome.parsed (chatCompletion [32, 104, 105])) (by decide) (by decide)

/-- C4, as stated, fails: with the completion text `" "` (one space, length
at most 160) the trimmed text is empty, and both handlers answer with the
description `"b"` instead of the trimmed text. -/
theorem blank_short_text_not_returned :
    completionText (chatCompletion [32]) = some [32] ∧
      ([32] : JSString).length ≤ 160 ∧
      (Cloudflare.fetch (some [97]) (some [98]) (some [107])
        (fun _ => Outcome.parsed (chatCompletion [32]))).1.body ≠ metaBody (.str (trim [32])) ∧
      (Vercel.handler (some (.single [97])) (some (.single [98])) (some [107])
        (fun _ => Outcome.parsed (chatCompletion [32]))).1.body ≠ metaBody (.str (trim [32])) := by
  have h : completionText (chatCompletion [32]) = some [32] := by decide
  have ht : trim [32] = [] := by decide
  refine ⟨h, by decide, ?_, ?_⟩
  · rw [fetch_key_text [97] [98] [107] [32] _ (chatCompletion [32]) (by decide) (by decide)
      (by decide) rfl h, ht]
    simp [metaBody, fallback]
  · rw [handler_single_eq_fetch, fetch_key_text [97] [98] [107] [32] _ (chatCompletion [32])
      (by decide) (by decide) (by decide) rfl h, ht]
    simp [metaBody, fallback]

/-- C4, amended.  For a valid request with a credential configured, when the
model call resolves to a response whose completion text has at most 160 code
units and is not empty once trimmed, both handlers answer 200 with `meta` equal
to the trimmed text. -/
theorem short_text_returned_trimmed (title description key text : JSString)
    (callModel : OutboundRequest → Outcome) (data : JSValue)
    (ht : title ≠ []) (hd : description ≠ []) (hk : key ≠ [])
    (hc : callModel (openaiRequest key title description) = .parsed data)
    (htext : completionText data = some text)
    (hlen : text.length ≤ 160) (hne : trim text ≠ []) :
    (Cloudflare.fetch (some title) (some description) (some key) callModel).1 =
        ⟨200, metaBody (.str (trim text))⟩ ∧
      (Vercel.handler (some (.single title)) (some (.single description)) (some key) callModel).1 =
        ⟨200, metaBody (.str (trim text))⟩ := by
  have e : (trim text).take 160 = trim text :=
    List.take_of_length_le (le_trans (trim_length_le text) hlen)
  refine ⟨?_, ?_⟩
  · rw [fetch_key_text title description key text callModel data ht hd hk hc htext,
      if_neg hne, e]
  · rw [handler_single_eq_fetch,
      fetch_key_text title description key text callModel data ht hd hk hc htext,
      if_neg hne, e]

/-- Witness of the amended C4 at the completion text `" hi"`. -/
theorem short_text_returned_trimmed_witness :
    (Cloudflare.fetch (some [97]) (some [98]) (some [107])
        (fun _ => Outcome.parsed (chatCompletion [32, 104, 105]))).1 =
        ⟨200, metaBody (.str (trim [32, 104, 105]))⟩ ∧
      (Vercel.handler (some (.single [97])) (some (.single [98])) (some [107])
        (fun _ => Outcome.parsed (chatCompletion [32, 104, 105]))).1 =
        ⟨200, metaBody (.str (trim [32, 104, 105]))⟩ :=
  short_text_returned_trimmed [97] [98] [107] [32, 104, 105]
    (fun _ => Outcome.parsed (chatCompletion [32, 104, 105])) (chatCompletion [32, 104, 105])
    (by decide) (by decide) (by decide) rfl (by decide) (by decide) (by decide)

/-- C5, as stated, fails: with a completion text of 161 spaces (longer than
160) the trimmed text is empty, and both handlers answer with the description
`"b"` instead of the first 160 code units of the trimmed text. -/
theorem blank_long_text_not_returned :
    completionText (chatCompletion (List.replicate 161 32)) = some (List.replicate 161 32) ∧
      160 < (List.replicate 161 (32 : CodeUnit)).length ∧
      (Cloudflare.fetch (some [97]) (some [98]) (some [107])
        (fun _ => Outcome.parsed (chatCompletion (List.replicate 161 32)))).1.body ≠
          metaBody (.str ((trim (List.replicate 161 32)).take 160)) ∧
      (Vercel.handler (some (.single [97])) (some (.single [98])) (some [107])
        (fun _ => Outcome.parsed (chatCompletion (List.replicate 161 32)))).1.body ≠
          metaBody (.str ((trim (List.replicate 161 32)).take 160)) := by
  have h := completionText_chatCompletion (List.replicate 161 32)
  have ht := trim_replicate_space 161
  refine ⟨h, by simp, ?_, ?_⟩
  · rw [fetch_key_text [97] [98] [107] _ _ _ (by decide) (by decide) (by decide) rfl h, ht]
    simp [metaBody, fallback]
  · rw [handler_single_eq_fetch,
      fetch_key_text [97] [98] [107] _ _ _ (by decide) (by decide) (by decide) rfl h, ht]
    simp [metaBody, fallback]

/-- C5, amended.  For a valid request with a credential configured, when the
model call resolves to a response whose completion text has more than 160 code
units and is not empty once trimmed, both handlers answer 200 with `meta` equal
to the first 160 code units of the trimmed text, nothing appended. -/
theorem long_text_cut_at_160 (title description key text : JSString)
    (callModel : OutboundRequest → Outcome) (data : JSValue)
    (ht : title ≠ []) (hd : description ≠ []) (hk : key ≠ [])
    (hc : callModel (openaiRequest key title description) = .parsed data)
    (htext : completionText data = some text)
    (hlen : 160 < text.length) (hne : trim text ≠ []) :
    (Cloudflare.fetch (some title) (some description) (some key) callModel).1 =
        ⟨200, metaBody (.str ((trim text).take 160))⟩ ∧
      (Vercel.handler (some (.single title)) (some (.single description)) (some key) callModel).1 =
        ⟨200, metaBody (.str ((trim text).take 160))⟩ := by
  have _ := hlen
  refine ⟨?_, ?_⟩
  · rw [fetch_key_text title description key text callModel data ht hd hk hc htext,
      if_neg hne]
  · rw [handler_single_eq_fetch,
      fetch_key_text title description key text callModel data ht hd hk hc htext,
      if_neg hne]

/-- Witness of the amended C5 at a completion text of 161 letters. -/
theorem long_text_cut_at_160_witness :
    (Cloudflare.fetch (some [97]) (some [98]) (some [107])
        (fun _ => Outcome.parsed (chatCompletion (List.replicate 161 120)))).1 =
        ⟨200, metaBody (.str ((trim (List.replicate 161 120)).take 160))⟩ ∧
      (Vercel.handler (some (.single [97])) (some (.single [98])) (some [107])
        (fun _ => Outcome.parsed (chatCompletion (List.replicate 161 120)))).1 =
        ⟨200, metaBody (.str ((trim (List.replicate 161 120)).take 160))⟩ :=
  long_text_cut_at_160 [97] [98] [107] (List.replicate 161 120)
    (fun _ => Outcome.parsed (chatCompletion (List.replicate 161 120)))
    (chatCompletion (List.replicate 161 120))
    (by decide) (by decide) (by decide) rfl rfl (by simp)
    (trim_cons_ne_nil 120 (List.replicate 160 120) (by decide))

/-- C6. For a valid request with a credential configured, when the model call
throws (the request or the parsing of its body) or resolves to a response
without a completion text (`data.choices[0].message.content` cannot be reached
or is not a string), each handler gives the response it gives for the same
title and description with no credential. -/
theorem failed_call_equals_no_credential (title description key : JSString)
    (callModel : OutboundRequest → Outcome)
    (ht : title ≠ []) (hd : description ≠ []) (hk : key ≠ [])
    (h : callModel (openaiRequest key title description) = .fetchThrew ∨
      callModel (openaiRequest key title description) = .jsonThrew ∨
      ∃ data, callModel (openaiRequest key title description) = .parsed data ∧
        completionText data = none) :
    (Cloudflare.fetch (some title) (some description) (some key) callModel).1 =
        (Cloudflare.fetch (some title) (some description) none callModel).1 ∧
      (Vercel.handler (some (.single title)) (some (.single description)) (some key) callModel).1 =
        (Vercel.handler (some (.single title)) (some (.single description)) none callModel).1 := by
  refine ⟨?_, ?_⟩
  · rw [fetch_key_fallback title description key callModel ht hd hk h,
      fetch_no_key title description none callModel ht hd rfl]
  · rw [handler_single_eq_fetch, handler_single_eq_fetch,
      fetch_key_fallback title description key callModel ht hd hk h,
      fetch_no_key title description none callModel ht hd rfl]

/-- Witness of C6 at a response whose `content` is a number. -/
theorem failed_call_equals_no_credential_witness :
    (Cloudflare.fetch (some [97]) (some [98]) (some [107])
        (fun _ => Outcome.parsed (.obj [(lit "choices", .arr [.obj [(lit "message",
          .obj [(lit "content", .num 7)])]])]))).1 =
        (Cloudflare.fetch (some [97]) (some [98]) none
        (fun _ => Outcome.parsed (.obj [(lit "choices", .arr [.obj [(lit "message",
          .obj [(lit "content", .num 7)])]])]))).1 ∧
      (Vercel.handler (some (.single [97])) (some (.single [98])) (some [107])
        (fun _ => Outcome.parsed (.obj [(lit "choices", .arr [.obj [(lit "message",
          .obj [(lit "content", .num 7)])]])]))).1 =
        (Vercel.handler (some (.single [97])) (some (.single [98])) none
        (fun _ => Outcome.parsed (.obj [(lit "choices", .arr [.obj [(lit "message",
          .obj [(lit "content", .num 7)])]])]))).1 :=
  failed_call_equals_no_credential [97] [98] [107] _ (by decide) (by decide) (by decide)
    (Or.inr (Or.inr ⟨_, rfl, rfl⟩))

/-- C7. The Cloudflare `fetch` and the Vercel `handler` agree: for every title
and description (each absent or a string), every credential and every outcome
of the model call they give the same status code and the same body, and issue
the same outbound requests. -/
theorem cloudflare_vercel_agree (t d : Option JSString) (apiKey : Credential)
    (callModel : OutboundRequest → Outcome) :
    (Cloudflare.fetch t d apiKey callModel).1.status =
        (Vercel.handler (t.map .single) (d.map .single) apiKey callModel).1.status ∧
      (Cloudflare.fetch t d apiKey callModel).1.body =
        (Vercel.handler (t.map .single) (d.map .single) apiKey callModel).1.body ∧
      (Cloudflare.fetch t d apiKey callModel).2 =
        (Vercel.handler (t.map .single) (d.map .single) apiKey callModel).2 := by
  rw [handler_eq_fetch]
  exact ⟨rfl, rfl, rfl⟩

/-- C8. For a title and a description each absent or a string, each handler
issues exactly one outbound request when the title, the description and the
credential are all present and non-empty, and none in every other case; in
particular a request that fails validation issues no request even with a
credential configured. -/
theorem outbound_request_count (t d : Option JSString) (apiKey : Credential)
    (callModel : OutboundRequest → Outcome) :
    ((∃ ts ds k, t = some ts ∧ ts ≠ [] ∧ d = some ds ∧ ds ≠ [] ∧ apiKey = some k ∧ k ≠ []) →
        (Cloudflare.fetch t d apiKey callModel).2.length = 1 ∧
          (Vercel.handler (t.map .single) (d.map .single) apiKey callModel).2.length = 1) ∧
      (¬ (∃ ts ds k, t = some ts ∧ ts ≠ [] ∧ d = some ds ∧ ds ≠ [] ∧ apiKey = some k ∧ k ≠ []) →
        (Cloudflare.fetch t d apiKey callModel).2.length = 0 ∧
          (Vercel.handler (t.map .single) (d.map .single) apiKey callModel).2.length = 0) ∧
      (((t = none ∨ t = some []) ∨ (d = none ∨ d = some [])) →
        (Cloudflare.fetch t d apiKey callModel).2.length = 0 ∧
          (Vercel.handler (t.map .single) (d.map .single) apiKey callModel).2.length = 0) := by
  refine ⟨?_, ?_, ?_⟩
  · rintro ⟨ts, ds, k, rfl, ht, rfl, hd, rfl, hk⟩
    rw [handler_eq_fetch, fetch_key ts ds k callModel ht hd hk]
    exact ⟨rfl, rfl⟩
  · intro h
    rw [handler_eq_fetch]
    by_cases hm : (t = none ∨ t = some []) ∨ (d = none ∨ d = some [])
    · rw [fetch_missing t d apiKey callModel hm]
      exact ⟨rfl, rfl⟩
    · push_neg at hm
      obtain ⟨⟨h1, h2⟩, h3, h4⟩ := hm
      cases t with
      | none => exact absurd rfl h1
      | some ts =>
        cases d with
        | none => exact absurd rfl h3
        | some ds =>
          have ht : ts ≠ [] := fun e => h2 (by rw [e])
          have hd : ds ≠ [] := fun e => h4 (by rw [e])
          have hk : toBoolean apiKey.toValue = false := by
            cases apiKey with
            | none => rfl
            | some k =>
              by_cases hk : k = []
              · rw [hk]; rfl
              · exact absurd ⟨ts, ds, k, rfl, ht, rfl, hd, rfl, hk⟩ h
          rw [fetch_no_key ts ds apiKey callModel ht hd hk]
          exact ⟨rfl, rfl⟩
  · intro hm
    rw [handler_eq_fetch, fetch_missing t d apiKey callModel hm]
    exact ⟨rfl, rfl⟩

/-- Witness of C8 at a valid request with a credential. -/
theorem outbound_request_count_witness :
    (Cloudflare.fetch (some [97]) (some [98]) (some [107])
        (fun _ => Outcome.fetchThrew)).2.length = 1 ∧
      (Vercel.handler (some (.single [97])) (some (.single [98])) (some [107])
        (fun _ => Outcome.fetchThrew)).2.length = 1 :=
  (outbound_request_count (some [97]) (some [98]) (some [107])
    (fun _ => Outcome.fetchThrew)).1
    ⟨[97], [98], [107], rfl, by decide, rfl, by decide, rfl, by decide⟩

/-- C9. For a valid request with a credential configured, when the model call
resolves to a response whose completion text is empty or only white space, both
handlers answer 200 with the fallback for the description: the description
when it has at most 160 code units, else its first 157 code units followed by
`...`. -/
theorem blank_text_falls_back (title description key text : JSString)
    (callModel : OutboundRequest → Outcome) (data : JSValue)
    (ht : title ≠ []) (hd : description ≠ []) (hk : key ≠ [])
    (hc : callModel (openaiRequest key title description) = .parsed data)
    (htext : completionText data = some text)
    (hws : ∀ c ∈ text, isWhiteSpace c = true) :
    (Cloudflare.fetch (some title) (some description) (some key) callModel).1 =
        ⟨200, metaBody (.str (if description.length ≤ 160 then description
          else description.take 157 ++ lit "..."))⟩ ∧
      (Vercel.handler (some (.single title)) (some (.single description)) (some key) callModel).1 =
        ⟨200, metaBody (.str (if description.length ≤ 160 then description
          else description.take 157 ++ lit "..."))⟩ := by
  have e := trim_eq_nil_of_forall text hws
  refine ⟨?_, ?_⟩
  · rw [fetch_key_text title description key text callModel data ht hd hk hc htext,
      if_pos e, fallback_eq_ite]
  · rw [handler_single_eq_fetch,
      fetch_key_text title description key text callModel data ht hd hk hc htext,
      if_pos e, fallback_eq_ite]

/-- Witness of C9 at the completion text made of a tab and a line feed. -/
theorem blank_text_falls_back_witness :
    (Cloudflare.fetch (some [97]) (some [98]) (some [107])
        (fun _ => Outcome.parsed (chatCompletion [9, 10]))).1 =
        ⟨200, metaBody (.str (if ([98] : JSString).length ≤ 160 then [98]
          else ([98] : JSString).take 157 ++ lit "..."))⟩ ∧
      (Vercel.handler (some (.single [97])) (some (.single [98])) (some [107])
        (fun _ => Outcome.parsed (chatCompletion [9, 10]))).1 =
        ⟨200, metaBody (.str (if ([98] : JSString).length ≤ 160 then [98]
          else ([98] : JSString).take 157 ++ lit "..."))⟩ :=
  blank_text_falls_back [97] [98] [107] [9, 10]
    (fun _ => Outcome.parsed (chatCompletion [9, 10])) (chatCompletion [9, 10])
    (by decide) (by decide) (by decide) rfl rfl
    (by intro c hc; simp at hc; rcases hc with rfl | rfl <;> rfl)

/-- C10. The fallback truncation is idempotent: applied to its own result it
returns that result unchanged. -/
theorem fallback_idempotent (description : JSString) :
    fallback (fallback description) = fallback description :=
  fallback_of_le _ (fallback_length_le description)

end MetaDescription
